import Mathlib

/-!
# Verification of `middlewareAuth` (src/middleware_auth.go)

A shallow embedding of the authentication gate.  The gate is one closure that
calls four collaborators in sequence: `auth.GetAPIKey`, `DB.GetUserByAPTKey`,
`respondWithError` and the wrapped `authedHandler`.  None of the collaborators
is defined in `middleware_auth.go`, so each of them is a parameter of the
embedding.  Mutable state is passed explicitly: the response sink behind
`http.ResponseWriter` is a value of type `ResponseWriter`, and every
collaborator call is recorded, in order and with its arguments, in a call log.
The two variables the closure captures, `apiCfg` and `handler`, are part of
the state as well: the body reads them from the state and the state after an
invocation says what they hold then.
-/

namespace MiddlewareAuth

/-! ## Data model -/

/-- What calling `Error()` on an error value does: it returns a text, or it
panics with a value, given here by the way `%v` prints that value. -/
inductive ErrorMethod where
  | returns (text : String)
  | panics (value : String)
  deriving DecidableEq, Repr

/-- What `Format(f, 'v')` does on an error value with respect to
`fmt.Formatter`: the value has no such method, or the method writes a text to
the print buffer and returns, or it writes a text and then panics with a
value, given here by the way `%v` prints that value. -/
inductive FormatMethod where
  | absent
  | writes (text : String)
  | panics (written : String) (value : String)
  deriving DecidableEq, Repr

/-- Go `error` values, as far as `fmt` can tell them apart under `%v`: the
behaviour of the `Error()` method, the behaviour of a `Format` method if the
dynamic type has one, and whether the dynamic value is a nil pointer. -/
structure error where
  Error : ErrorMethod
  Format : FormatMethod
  nilPointer : Bool
  deriving DecidableEq, Repr

/-- Go `errors.New(text)`: a non-nil pointer whose `Error()` returns `text`
and that has no `Format` method. -/
def errorsNew (text : String) : error :=
  error.mk (ErrorMethod.returns text) FormatMethod.absent false

/-- Go `http.Header`, a map from header names to the list of their values. -/
abbrev Header := List (String × List String)

/-- Go `context.Context` as returned by `r.Context()`; the gate passes it on
without looking inside. -/
structure Context where
  id : Nat
  deriving DecidableEq, Repr

/-- Go `*http.Request`: the fields a handler can observe.  `Context` is the
value returned by `r.Context()`. -/
structure Request where
  Method : String
  URL : String
  Header : Header
  Body : String
  Context : Context
  deriving DecidableEq, Repr

/-- One write on a response sink: a status code and a body. -/
structure Response where
  status : Nat
  body : String
  deriving DecidableEq, Repr

/-- State of the response sink behind a Go `http.ResponseWriter`: the writes
performed on it so far, oldest first. -/
abbrev ResponseWriter := List Response

/-- Modelled from the spec: `database.User` is declared in
`internal/database`, outside the given sources.  The spec treats it as an
identity record the gate never looks inside, passed through by value, and
writes one as `{id: 42, name: "alice"}`. -/
structure User where
  id : Nat
  name : String
  deriving DecidableEq, Repr

/-- Go `net/http` constant `StatusNetworkAuthenticationRequired`. -/
def StatusNetworkAuthenticationRequired : Nat := 511

/-- Go `net/http` constant `StatusNotFound`. -/
def StatusNotFound : Nat := 404

/-- Go `net/http` constant `StatusUnauthorized`. -/
def StatusUnauthorized : Nat := 401

/-! ## `fmt.Sprintf` for the two format strings of the gate -/

/-- Method `catchPanic` of `fmt` for verb `v`: what is printed when the method
named `method` panicked with `value` while `e` was being printed.  A nil
pointer prints `<nil>`; any other value prints the panic note. -/
def catchPanic (e : error) (method : String) (value : String) : String :=
  if e.nilPointer then "<nil>"
  else "%!v(PANIC=" ++ method ++ " method: " ++ value ++ ")"

/-- Method `handleMethods` of `fmt` for verb `v` and an operand of type
`error`: the text printed for the operand.  A `Format` method is tried first;
without one, the result of `Error()` is printed.  A panic of either method is
caught by `catchPanic`. -/
def handleMethods (e : error) : String :=
  match e.Format with
  | FormatMethod.writes text => text
  | FormatMethod.panics written value => written ++ catchPanic e "Format" value
  | FormatMethod.absent =>
    match e.Error with
    | ErrorMethod.returns text => text
    | ErrorMethod.panics value => catchPanic e "Error" value

/-- Expansion of a format string over its characters.  `arg` is the text of
the next unused operand, if any.  `%v` prints the operand; `%v` without an
operand prints
`%!v(MISSING)`; `%%` prints a percent sign; every other character is copied. -/
def SprintfChars : List Char → Option String → List Char
  | '%' :: 'v' :: rest, some a => a.data ++ SprintfChars rest none
  | '%' :: 'v' :: rest, none => "%!v(MISSING)".data ++ SprintfChars rest none
  | '%' :: '%' :: rest, arg => '%' :: SprintfChars rest arg
  | c :: rest, arg => c :: SprintfChars rest arg
  | [], _ => []

/-- Go `fmt.Sprintf(format, err)` with one operand of type `error`. -/
def Sprintf (format : String) (err : error) : String :=
  String.mk (SprintfChars format.data (some (handleMethods err)))

/-! ## Collaborators and the call log -/

/-- Type `authedHandler func(http.ResponseWriter, *http.Request, database.User)`
(line 11).  A handler receives the sink, the request and the user, and
leaves the sink in a new state. -/
abbrev authedHandler := ResponseWriter → Request → User → ResponseWriter

/-- The query object behind `apiCfg.DB`, with the one method the gate calls. -/
structure Queries where
  GetUserByAPTKey : Context → String → Except error User

/-- Type `apiConfig`, the receiver of `middlewareAuth`. -/
structure apiConfig where
  DB : Queries

/-- Package-level functions the gate calls that are defined outside
`middleware_auth.go`: `auth.GetAPIKey` and `respondWithError`. -/
structure Package where
  GetAPIKey : Header → Except error String
  respondWithError : ResponseWriter → Nat → String → ResponseWriter

/-- One collaborator call, with the arguments it was given. -/
inductive Call where
  | GetAPIKey (headers : Header)
  | GetUserByAPTKey (ctx : Context) (apiKey : String)
  | respondWithError (w : ResponseWriter) (code : Nat) (msg : String)
  | handler (w : ResponseWriter) (r : Request) (user : User)
  deriving DecidableEq, Repr

/-- State threaded through one invocation of the gate: the response sink, the
collaborator calls made so far, oldest first, and the two variables the
closure captured, `apiCfg` (with the struct it points to) and `handler`. -/
structure World where
  w : ResponseWriter
  calls : List Call
  apiCfg : apiConfig
  handler : authedHandler

/-- Type `http.HandlerFunc`: what one invocation on `(w, r)` leaves behind. -/
abbrev HandlerFunc := ResponseWriter → Request → World

/-- Call `auth.GetAPIKey(headers)`: log the call, return its result. -/
def callGetAPIKey (pkg : Package) (headers : Header) (s : World) :
    Except error String × World :=
  (pkg.GetAPIKey headers,
    World.mk s.w (s.calls ++ [Call.GetAPIKey headers]) s.apiCfg s.handler)

/-- Call `apiCfg.DB.GetUserByAPTKey(ctx, apiKey)`: read the captured `apiCfg`,
log the call, return its result. -/
def callGetUserByAPTKey (ctx : Context) (apiKey : String) (s : World) :
    Except error User × World :=
  (s.apiCfg.DB.GetUserByAPTKey ctx apiKey,
    World.mk s.w (s.calls ++ [Call.GetUserByAPTKey ctx apiKey]) s.apiCfg s.handler)

/-- Call `respondWithError(w, code, msg)`: log the call, let it act on the
sink. -/
def callRespondWithError (pkg : Package) (code : Nat) (msg : String)
    (s : World) : World :=
  World.mk (pkg.respondWithError s.w code msg)
    (s.calls ++ [Call.respondWithError s.w code msg]) s.apiCfg s.handler

/-- Call `handler(w, r, user)`: read the captured `handler`, log the call, let
it act on the sink. -/
def callHandler (r : Request) (user : User) (s : World) : World :=
  World.mk (s.handler s.w r user) (s.calls ++ [Call.handler s.w r user])
    s.apiCfg s.handler

/-! ## The gate -/

/-- Function `middlewareAuth` (lines 13-28).  The returned closure captures
`apiCfg` and `handler`; an invocation starts from the sink it is given and an
empty call log. -/
def middlewareAuth (pkg : Package) (apiCfg : apiConfig)
    (handler : authedHandler) : HandlerFunc :=
  fun w r =>
    let s0 := World.mk w [] apiCfg handler
    let (res, s1) := callGetAPIKey pkg r.Header s0
    match res with
    | .error err =>
      callRespondWithError pkg StatusNetworkAuthenticationRequired
        (Sprintf "Auth error: %v" err) s1
    | .ok apiKey =>
      let (res2, s2) := callGetUserByAPTKey r.Context apiKey s1
      match res2 with
      | .error err =>
        callRespondWithError pkg StatusNotFound
          (Sprintf "User Not Found: %v" err) s2
      | .ok user =>
        callHandler r user s2

/-! ## Two closures from one receiver -/

/-- Two closures obtained by calling `middlewareAuth` twice on one receiver:
the struct behind the `apiCfg` pointer they share, and the `handler` variable
each of them captured. -/
structure Closures where
  apiCfg : apiConfig
  first : authedHandler
  second : authedHandler

/-- Invoke one of the two closures, the second one when `second` is true, on
a sink and a request.  The invocation starts from what the captured variables
hold now and leaves them as the body left them. -/
def invoke (pkg : Package) (c : Closures) (second : Bool) (w : ResponseWriter)
    (r : Request) : World × Closures :=
  if second then
    let out := middlewareAuth pkg c.apiCfg c.second w r
    (out, Closures.mk out.apiCfg c.first out.handler)
  else
    let out := middlewareAuth pkg c.apiCfg c.first w r
    (out, Closures.mk out.apiCfg out.handler c.second)

/-- A run of invocations of the two closures, one after the other, each on
its own sink and request: the sink and call log each invocation leaves, and
the captured variables after the last one. -/
def serve (pkg : Package) :
    Closures → List (Bool × ResponseWriter × Request) →
      List (ResponseWriter × List Call) × Closures
  | c, [] => ([], c)
  | c, (second, w, r) :: rest =>
    let (out, c1) := invoke pkg c second w r
    let (outs, c2) := serve pkg c1 rest
    ((out.w, out.calls) :: outs, c2)

/-- The behaviour of section 4.1 of the spec, steps 1 to 3, written as a
function of the results of the extractor and of the resolver alone: the sink
and the collaborator calls one invocation is to leave.  It is compared with
`middlewareAuth`, which is translated from the source. -/
def outcomeOfResults (pkg : Package) (apiCfg : apiConfig) (handler : authedHandler)
    (w : ResponseWriter) (r : Request) : ResponseWriter × List Call :=
  match pkg.GetAPIKey r.Header with
  | .error err =>
    (pkg.respondWithError w StatusNetworkAuthenticationRequired
        (Sprintf "Auth error: %v" err),
      [Call.GetAPIKey r.Header,
        Call.respondWithError w StatusNetworkAuthenticationRequired
          (Sprintf "Auth error: %v" err)])
  | .ok apiKey =>
    match apiCfg.DB.GetUserByAPTKey r.Context apiKey with
    | .error err =>
      (pkg.respondWithError w StatusNotFound (Sprintf "User Not Found: %v" err),
        [Call.GetAPIKey r.Header, Call.GetUserByAPTKey r.Context apiKey,
          Call.respondWithError w StatusNotFound (Sprintf "User Not Found: %v" err)])
    | .ok user =>
      (handler w r user,
        [Call.GetAPIKey r.Header, Call.GetUserByAPTKey r.Context apiKey,
          Call.handler w r user])

/-! ## Reading the call log -/

/-- Calls of the wrapped handler in a log, with their arguments. -/
def handlerCalls : List Call → List (ResponseWriter × Request × User)
  | [] => []
  | Call.handler w r user :: cs => (w, r, user) :: handlerCalls cs
  | _ :: cs => handlerCalls cs

/-- Calls of `respondWithError` in a log, with their arguments. -/
def errorResponderCalls : List Call → List (ResponseWriter × Nat × String)
  | [] => []
  | Call.respondWithError w code msg :: cs => (w, code, msg) :: errorResponderCalls cs
  | _ :: cs => errorResponderCalls cs

/-- Calls of `auth.GetAPIKey` in a log, with their argument. -/
def extractorCalls : List Call → List Header
  | [] => []
  | Call.GetAPIKey headers :: cs => headers :: extractorCalls cs
  | _ :: cs => extractorCalls cs

/-- Calls of `GetUserByAPTKey` in a log, with their arguments. -/
def resolverCalls : List Call → List (Context × String)
  | [] => []
  | Call.GetUserByAPTKey ctx apiKey :: cs => (ctx, apiKey) :: resolverCalls cs
  | _ :: cs => resolverCalls cs

/-- Number of writes added to a sink between two of its states. -/
def writeCount (before after : ResponseWriter) : Nat :=
  after.length - before.length

/-! ## Example collaborators -/

/-- An extractor that returns the single value of the `Authorization` header
and fails when the header is absent. -/
def exampleGetAPIKey : Header → Except error String
  | [] => .error (errorsNew "no authentication info found")
  | (name, values) :: rest =>
    if name = "Authorization" then
      match values with
      | [v] => .ok v
      | _ => .error (errorsNew "malformed auth header")
    else exampleGetAPIKey rest

/-- Modelled from the spec: `respondWithError` is defined outside the given
sources.  Its contract in the spec is that it "always produces exactly one
terminal response write" carrying the status code and the message. -/
def exampleRespondWithError (w : ResponseWriter) (code : Nat) (msg : String) :
    ResponseWriter :=
  w ++ [Response.mk code msg]

/-- The package functions used in the examples. -/
def examplePackage : Package :=
  Package.mk exampleGetAPIKey exampleRespondWithError

/-- A configuration whose store holds the one user of the scenarios of the
spec: key `abc123` belongs to user 42, `alice`. -/
def aliceConfig : apiConfig :=
  apiConfig.mk (Queries.mk fun _ apiKey =>
    if apiKey = "abc123" then .ok (User.mk 42 "alice")
    else .error (errorsNew "sql: no rows in result set"))

/-- An error whose dynamic type has a `Format` method: `Error()` returns
`short text`, and under `%v` the value prints itself as `formatted view`. -/
def formattedError : error :=
  error.mk (ErrorMethod.returns "short text") (FormatMethod.writes "formatted view") false

/-- Package functions whose extractor fails with `formattedError` on every
request. -/
def formatterPackage : Package :=
  Package.mk (fun _ => .error formattedError) exampleRespondWithError

/-- A configuration whose store holds no user at all. -/
def emptyConfig : apiConfig :=
  apiConfig.mk (Queries.mk fun _ _ => .error (errorsNew "sql: no rows in result set"))

/-- A handler that answers 200 with the name of the user. -/
def greetHandler : authedHandler :=
  fun w _ user => w ++ [Response.mk 200 user.name]

/-- A handler that returns without writing anything. -/
def silentHandler : authedHandler :=
  fun w _ _ => w

/-- A handler that writes twice. -/
def chattyHandler : authedHandler :=
  fun w _ user => w ++ [Response.mk 200 user.name, Response.mk 200 "bye"]

/-- A request without any header. -/
def bareRequest : Request :=
  Request.mk "GET" "/v1/users" [] "" (Context.mk 7)

/-- A request carrying the credential `abc123`. -/
def keyedRequest : Request :=
  Request.mk "GET" "/v1/users" [("Authorization", ["abc123"])] "" (Context.mk 7)

/-! ## The three paths of the gate -/

theorem Sprintf_auth_error (e : error) :
    Sprintf "Auth error: %v" e = "Auth error: " ++ handleMethods e := by
  unfold Sprintf
  generalize handleMethods e = t
  cases t with
  | mk cs =>
    show String.mk (SprintfChars
      ['A', 'u', 't', 'h', ' ', 'e', 'r', 'r', 'o', 'r', ':', ' ', '%', 'v']
      (some (String.mk cs))) = _
    simp [SprintfChars]
    rfl

theorem Sprintf_user_not_found (e : error) :
    Sprintf "User Not Found: %v" e = "User Not Found: " ++ handleMethods e := by
  unfold Sprintf
  generalize handleMethods e = t
  cases t with
  | mk cs =>
    show String.mk (SprintfChars
      ['U', 's', 'e', 'r', ' ', 'N', 'o', 't', ' ', 'F', 'o', 'u', 'n', 'd', ':', ' ',
        '%', 'v']
      (some (String.mk cs))) = _
    simp [SprintfChars]
    rfl

/-- An error without a `Format` method whose `Error()` returns a text prints
as that text under `%v`. -/
theorem handleMethods_plain (e : error) (text : String)
    (hfmt : e.Format = FormatMethod.absent)
    (herr : e.Error = ErrorMethod.returns text) :
    handleMethods e = text := by
  simp [handleMethods, hfmt, herr]

/-- Extraction fails: the gate calls the extractor, then the error responder,
and returns. -/
theorem gate_extraction_failure (pkg : Package) (apiCfg : apiConfig)
    (handler : authedHandler) (w : ResponseWriter) (r : Request) (err : error)
    (hext : pkg.GetAPIKey r.Header = .error err) :
    middlewareAuth pkg apiCfg handler w r =
      World.mk
        (pkg.respondWithError w StatusNetworkAuthenticationRequired
          (Sprintf "Auth error: %v" err))
        [Call.GetAPIKey r.Header,
          Call.respondWithError w StatusNetworkAuthenticationRequired
            (Sprintf "Auth error: %v" err)]
        apiCfg handler := by
  simp [middlewareAuth, callGetAPIKey, callRespondWithError, hext]

/-- Extraction succeeds and resolution fails: the gate calls the extractor,
the resolver, then the error responder, and returns. -/
theorem gate_resolution_failure (pkg : Package) (apiCfg : apiConfig)
    (handler : authedHandler) (w : ResponseWriter) (r : Request)
    (apiKey : String) (err : error)
    (hext : pkg.GetAPIKey r.Header = .ok apiKey)
    (hres : apiCfg.DB.GetUserByAPTKey r.Context apiKey = .error err) :
    middlewareAuth pkg apiCfg handler w r =
      World.mk
        (pkg.respondWithError w StatusNotFound (Sprintf "User Not Found: %v" err))
        [Call.GetAPIKey r.Header, Call.GetUserByAPTKey r.Context apiKey,
          Call.respondWithError w StatusNotFound
            (Sprintf "User Not Found: %v" err)]
        apiCfg handler := by
  simp [middlewareAuth, callGetAPIKey, callGetUserByAPTKey, callRespondWithError,
    hext, hres]

/-- Extraction and resolution succeed: the gate calls the extractor, the
resolver, then the wrapped handler. -/
theorem gate_delegation (pkg : Package) (apiCfg : apiConfig)
    (handler : authedHandler) (w : ResponseWriter) (r : Request)
    (apiKey : String) (user : User)
    (hext : pkg.GetAPIKey r.Header = .ok apiKey)
    (hres : apiCfg.DB.GetUserByAPTKey r.Context apiKey = .ok user) :
    middlewareAuth pkg apiCfg handler w r =
      World.mk (handler w r user)
        [Call.GetAPIKey r.Header, Call.GetUserByAPTKey r.Context apiKey,
          Call.handler w r user]
        apiCfg handler := by
  simp [middlewareAuth, callGetAPIKey, callGetUserByAPTKey, callHandler, hext, hres]

/-- Whatever the extractor and the resolver return, the gate takes one of the
three paths. -/
theorem gate_paths (pkg : Package) (apiCfg : apiConfig) (r : Request) :
    (∃ err, pkg.GetAPIKey r.Header = .error err) ∨
    (∃ apiKey err, pkg.GetAPIKey r.Header = .ok apiKey ∧
      apiCfg.DB.GetUserByAPTKey r.Context apiKey = .error err) ∨
    (∃ apiKey user, pkg.GetAPIKey r.Header = .ok apiKey ∧
      apiCfg.DB.GetUserByAPTKey r.Context apiKey = .ok user) := by
  cases hext : pkg.GetAPIKey r.Header with
  | error err => exact Or.inl ⟨err, rfl⟩
  | ok apiKey =>
    cases hres : apiCfg.DB.GetUserByAPTKey r.Context apiKey with
    | error err => exact Or.inr (Or.inl ⟨apiKey, err, rfl, hres⟩)
    | ok user => exact Or.inr (Or.inr ⟨apiKey, user, rfl, hres⟩)

/-- One invocation leaves the sink and the calls that `outcomeOfResults`
prescribes, and leaves the captured variables as they were. -/
theorem gate_outcome (pkg : Package) (apiCfg : apiConfig)
    (handler : authedHandler) (w : ResponseWriter) (r : Request) :
    ((middlewareAuth pkg apiCfg handler w r).w,
        (middlewareAuth pkg apiCfg handler w r).calls) =
      outcomeOfResults pkg apiCfg handler w r ∧
    (middlewareAuth pkg apiCfg handler w r).apiCfg = apiCfg ∧
    (middlewareAuth pkg apiCfg handler w r).handler = handler := by
  rcases gate_paths pkg apiCfg r with
    ⟨err, h1⟩ | ⟨apiKey, err, h1, h2⟩ | ⟨apiKey, user, h1, h2⟩
  · rw [gate_extraction_failure pkg apiCfg handler w r err h1]
    simp [outcomeOfResults, h1]
  · rw [gate_resolution_failure pkg apiCfg handler w r apiKey err h1 h2]
    simp [outcomeOfResults, h1, h2]
  · rw [gate_delegation pkg apiCfg handler w r apiKey user h1 h2]
    simp [outcomeOfResults, h1, h2]

/-- An invocation of either of two closures around the same handler leaves
the captured variables of both as they were. -/
theorem invoke_keeps_closures (pkg : Package) (apiCfg : apiConfig)
    (handler : authedHandler) (second : Bool) (w : ResponseWriter) (r : Request) :
    invoke pkg (Closures.mk apiCfg handler handler) second w r =
      (middlewareAuth pkg apiCfg handler w r, Closures.mk apiCfg handler handler) := by
  have h := gate_outcome pkg apiCfg handler w r
  cases second <;> simp [invoke, h.2.1, h.2.2]

/-! ## Claims -/

/-- C1: for every request and every behaviour of the extractor and the
resolver, the gate invokes the wrapped handler if and only if `GetAPIKey`
succeeds on the request headers and `GetUserByAPTKey` succeeds on the
extracted key.  When both succeed, the one handler call is on the given sink,
request and resolved user, and the final sink is the one the wrapped handler
leaves; when they do not both succeed, the final sink and the calls are the
same whatever handler was wrapped. -/
theorem handler_invoked_iff_both_succeed (pkg : Package) (apiCfg : apiConfig)
    (handler : authedHandler) (w : ResponseWriter) (r : Request) :
    (handlerCalls (middlewareAuth pkg apiCfg handler w r).calls ≠ [] ↔
      ∃ apiKey user, pkg.GetAPIKey r.Header = .ok apiKey ∧
        apiCfg.DB.GetUserByAPTKey r.Context apiKey = .ok user) ∧
    (∀ apiKey user, pkg.GetAPIKey r.Header = .ok apiKey →
      apiCfg.DB.GetUserByAPTKey r.Context apiKey = .ok user →
      handlerCalls (middlewareAuth pkg apiCfg handler w r).calls = [(w, r, user)] ∧
      (middlewareAuth pkg apiCfg handler w r).w = handler w r user) ∧
    ((¬ ∃ apiKey user, pkg.GetAPIKey r.Header = .ok apiKey ∧
        apiCfg.DB.GetUserByAPTKey r.Context apiKey = .ok user) →
      ∀ other : authedHandler,
        (middlewareAuth pkg apiCfg other w r).w =
          (middlewareAuth pkg apiCfg handler w r).w ∧
        (middlewareAuth pkg apiCfg other w r).calls =
          (middlewareAuth pkg apiCfg handler w r).calls) := by
  rcases gate_paths pkg apiCfg r with
    ⟨err, hext⟩ | ⟨apiKey, err, hext, hres⟩ | ⟨apiKey, user, hext, hres⟩
  · refine ⟨?_, ?_, ?_⟩
    · rw [gate_extraction_failure pkg apiCfg handler w r err hext]
      simp [handlerCalls, hext]
    · intro apiKey user h1
      rw [hext] at h1
      cases h1
    · intro _ other
      rw [gate_extraction_failure pkg apiCfg handler w r err hext,
        gate_extraction_failure pkg apiCfg other w r err hext]
      exact ⟨rfl, rfl⟩
  · refine ⟨?_, ?_, ?_⟩
    · rw [gate_resolution_failure pkg apiCfg handler w r apiKey err hext hres]
      simp [handlerCalls, hext, hres]
    · intro apiKey2 user h1 h2
      rw [hext] at h1
      cases h1
      rw [hres] at h2
      cases h2
    · intro _ other
      rw [gate_resolution_failure pkg apiCfg handler w r apiKey err hext hres,
        gate_resolution_failure pkg apiCfg other w r apiKey err hext hres]
      exact ⟨rfl, rfl⟩
  · refine ⟨?_, ?_, ?_⟩
    · rw [gate_delegation pkg apiCfg handler w r apiKey user hext hres]
      simp [handlerCalls, hext, hres]
    · intro apiKey2 user2 h1 h2
      rw [hext] at h1
      cases h1
      rw [hres] at h2
      cases h2
      rw [gate_delegation pkg apiCfg handler w r apiKey user hext hres]
      simp [handlerCalls]
    · intro hnot
      exact absurd ⟨apiKey, user, hext, hres⟩ hnot

theorem handler_invoked_iff_both_succeed_witness :
    (handlerCalls
        (middlewareAuth examplePackage aliceConfig greetHandler [] keyedRequest).calls =
        [([], keyedRequest, User.mk 42 "alice")] ∧
      (middlewareAuth examplePackage aliceConfig greetHandler [] keyedRequest).w =
        [Response.mk 200 "alice"]) ∧
    ((middlewareAuth examplePackage emptyConfig chattyHandler [] keyedRequest).w =
        (middlewareAuth examplePackage emptyConfig greetHandler [] keyedRequest).w ∧
      (middlewareAuth examplePackage emptyConfig chattyHandler [] keyedRequest).calls =
        (middlewareAuth examplePackage emptyConfig greetHandler [] keyedRequest).calls) :=
  ⟨(handler_invoked_iff_both_succeed examplePackage aliceConfig greetHandler []
      keyedRequest).2.1 "abc123" (User.mk 42 "alice") rfl rfl,
    (handler_invoked_iff_both_succeed examplePackage emptyConfig greetHandler []
      keyedRequest).2.2
      (fun h => by
        obtain ⟨apiKey, user, _, h2⟩ := h
        cases h2)
      chattyHandler⟩

/-- C2: when `GetAPIKey` fails, the wrapped handler is never invoked and the
error responder is called exactly once, on the sink of the request, with
status `StatusNetworkAuthenticationRequired`, which is 511 and not 401; the
final sink is what that call leaves. -/
theorem extraction_failure_responds_511 (pkg : Package) (apiCfg : apiConfig)
    (handler : authedHandler) (w : ResponseWriter) (r : Request) (err : error)
    (hext : pkg.GetAPIKey r.Header = .error err) :
    handlerCalls (middlewareAuth pkg apiCfg handler w r).calls = [] ∧
    (∃ msg,
      errorResponderCalls (middlewareAuth pkg apiCfg handler w r).calls =
        [(w, StatusNetworkAuthenticationRequired, msg)] ∧
      (middlewareAuth pkg apiCfg handler w r).w =
        pkg.respondWithError w StatusNetworkAuthenticationRequired msg) ∧
    StatusNetworkAuthenticationRequired = 511 ∧
    StatusNetworkAuthenticationRequired ≠ StatusUnauthorized := by
  rw [gate_extraction_failure pkg apiCfg handler w r err hext]
  refine ⟨by simp [handlerCalls], ⟨Sprintf "Auth error: %v" err, ?_, rfl⟩, rfl, by decide⟩
  simp [errorResponderCalls]

theorem extraction_failure_responds_511_witness :
    examplePackage.GetAPIKey bareRequest.Header =
      .error (errorsNew "no authentication info found") ∧
    (handlerCalls (middlewareAuth examplePackage aliceConfig greetHandler [] bareRequest).calls
        = [] ∧
      (∃ msg,
        errorResponderCalls
            (middlewareAuth examplePackage aliceConfig greetHandler [] bareRequest).calls =
          [([], StatusNetworkAuthenticationRequired, msg)] ∧
        (middlewareAuth examplePackage aliceConfig greetHandler [] bareRequest).w =
          examplePackage.respondWithError [] StatusNetworkAuthenticationRequired msg) ∧
      StatusNetworkAuthenticationRequired = 511 ∧
      StatusNetworkAuthenticationRequired ≠ StatusUnauthorized) :=
  ⟨rfl, extraction_failure_responds_511 examplePackage aliceConfig greetHandler []
    bareRequest (errorsNew "no authentication info found") rfl⟩

/-- C3: when the credential is extracted and `GetUserByAPTKey` returns an
error, the wrapped handler is never invoked and the error responder is called
exactly once, on the sink of the request, with status `StatusNotFound`, which
is 404; the final sink is what that call leaves. -/
theorem resolution_failure_responds_404 (pkg : Package) (apiCfg : apiConfig)
    (handler : authedHandler) (w : ResponseWriter) (r : Request)
    (apiKey : String) (err : error)
    (hext : pkg.GetAPIKey r.Header = .ok apiKey)
    (hres : apiCfg.DB.GetUserByAPTKey r.Context apiKey = .error err) :
    handlerCalls (middlewareAuth pkg apiCfg handler w r).calls = [] ∧
    (∃ msg,
      errorResponderCalls (middlewareAuth pkg apiCfg handler w r).calls =
        [(w, StatusNotFound, msg)] ∧
      (middlewareAuth pkg apiCfg handler w r).w =
        pkg.respondWithError w StatusNotFound msg) ∧
    StatusNotFound = 404 := by
  rw [gate_resolution_failure pkg apiCfg handler w r apiKey err hext hres]
  refine ⟨by simp [handlerCalls], ⟨Sprintf "User Not Found: %v" err, ?_, rfl⟩, rfl⟩
  simp [errorResponderCalls]

theorem resolution_failure_responds_404_witness :
    (examplePackage.GetAPIKey keyedRequest.Header = .ok "abc123" ∧
      emptyConfig.DB.GetUserByAPTKey keyedRequest.Context "abc123" =
        .error (errorsNew "sql: no rows in result set")) ∧
    (handlerCalls (middlewareAuth examplePackage emptyConfig greetHandler [] keyedRequest).calls
        = [] ∧
      (∃ msg,
        errorResponderCalls
            (middlewareAuth examplePackage emptyConfig greetHandler [] keyedRequest).calls =
          [([], StatusNotFound, msg)] ∧
        (middlewareAuth examplePackage emptyConfig greetHandler [] keyedRequest).w =
          examplePackage.respondWithError [] StatusNotFound msg) ∧
      StatusNotFound = 404) :=
  ⟨⟨rfl, rfl⟩, resolution_failure_responds_404 examplePackage emptyConfig greetHandler []
    keyedRequest "abc123" (errorsNew "sql: no rows in result set") rfl rfl⟩

/-- C4: when the credential is extracted and resolves to a user `U`, the gate
invokes the wrapped handler exactly once, with the sink it was given, the
request it was given, and exactly `U`: the log holds that one handler call
after the extractor and resolver calls, and the final sink is the one a single
run of the wrapped handler on that sink, request and user leaves. -/
theorem delegation_calls_handler_once (pkg : Package) (apiCfg : apiConfig)
    (handler : authedHandler) (w : ResponseWriter) (r : Request)
    (apiKey : String) (user : User)
    (hext : pkg.GetAPIKey r.Header = .ok apiKey)
    (hres : apiCfg.DB.GetUserByAPTKey r.Context apiKey = .ok user) :
    handlerCalls (middlewareAuth pkg apiCfg handler w r).calls = [(w, r, user)] ∧
    (middlewareAuth pkg apiCfg handler w r).w = handler w r user ∧
    (middlewareAuth pkg apiCfg handler w r).calls =
      [Call.GetAPIKey r.Header, Call.GetUserByAPTKey r.Context apiKey,
        Call.handler w r user] := by
  rw [gate_delegation pkg apiCfg handler w r apiKey user hext hres]
  simp [handlerCalls]

theorem delegation_calls_handler_once_witness :
    (examplePackage.GetAPIKey keyedRequest.Header = .ok "abc123" ∧
      aliceConfig.DB.GetUserByAPTKey keyedRequest.Context "abc123" =
        .ok (User.mk 42 "alice")) ∧
    (handlerCalls
        (middlewareAuth examplePackage aliceConfig greetHandler [] keyedRequest).calls
        = [([], keyedRequest, User.mk 42 "alice")] ∧
      (middlewareAuth examplePackage aliceConfig greetHandler [] keyedRequest).w =
        greetHandler [] keyedRequest (User.mk 42 "alice") ∧
      (middlewareAuth examplePackage aliceConfig greetHandler [] keyedRequest).calls =
        [Call.GetAPIKey keyedRequest.Header,
          Call.GetUserByAPTKey keyedRequest.Context "abc123",
          Call.handler [] keyedRequest (User.mk 42 "alice")]) :=
  ⟨⟨rfl, rfl⟩, delegation_calls_handler_once examplePackage aliceConfig greetHandler []
    keyedRequest "abc123" (User.mk 42 "alice") rfl rfl⟩

/-- C5, as stated, fails: on the delegation path the writes on the sink are
those of the wrapped handler.  With a handler that returns without writing,
no write occurs during the invocation; with a handler that writes twice, two
do. -/
theorem delegation_write_count_not_one :
    writeCount []
        (middlewareAuth examplePackage aliceConfig silentHandler [] keyedRequest).w = 0 ∧
    writeCount []
        (middlewareAuth examplePackage aliceConfig chattyHandler [] keyedRequest).w = 2 := by
  constructor <;> rfl

/-- C5, amended: if every call of the error responder adds exactly one write
to the sink, then on the extraction-failure path and on the resolution-failure
path exactly one write occurs during the invocation, and it is the one made by
the single error-responder call: the log holds one responder call and no
handler call, the final sink is the one that call leaves, and it is the
initial sink followed by one response.  On the delegation path the gate adds
no write of its own: it never calls the error responder and the final sink is
the one the wrapped handler leaves. -/
theorem writes_per_path (pkg : Package) (apiCfg : apiConfig)
    (handler : authedHandler) (w : ResponseWriter) (r : Request)
    (hresp : ∀ w0 code msg, ∃ resp, pkg.respondWithError w0 code msg = w0 ++ [resp]) :
    (∀ err, pkg.GetAPIKey r.Header = .error err →
      errorResponderCalls (middlewareAuth pkg apiCfg handler w r).calls =
        [(w, StatusNetworkAuthenticationRequired, Sprintf "Auth error: %v" err)] ∧
      handlerCalls (middlewareAuth pkg apiCfg handler w r).calls = [] ∧
      (middlewareAuth pkg apiCfg handler w r).w =
        pkg.respondWithError w StatusNetworkAuthenticationRequired
          (Sprintf "Auth error: %v" err) ∧
      (∃ resp, (middlewareAuth pkg apiCfg handler w r).w = w ++ [resp]) ∧
      writeCount w (middlewareAuth pkg apiCfg handler w r).w = 1) ∧
    (∀ apiKey err, pkg.GetAPIKey r.Header = .ok apiKey →
      apiCfg.DB.GetUserByAPTKey r.Context apiKey = .error err →
      errorResponderCalls (middlewareAuth pkg apiCfg handler w r).calls =
        [(w, StatusNotFound, Sprintf "User Not Found: %v" err)] ∧
      handlerCalls (middlewareAuth pkg apiCfg handler w r).calls = [] ∧
      (middlewareAuth pkg apiCfg handler w r).w =
        pkg.respondWithError w StatusNotFound (Sprintf "User Not Found: %v" err) ∧
      (∃ resp, (middlewareAuth pkg apiCfg handler w r).w = w ++ [resp]) ∧
      writeCount w (middlewareAuth pkg apiCfg handler w r).w = 1) ∧
    (∀ apiKey user, pkg.GetAPIKey r.Header = .ok apiKey →
      apiCfg.DB.GetUserByAPTKey r.Context apiKey = .ok user →
      errorResponderCalls (middlewareAuth pkg apiCfg handler w r).calls = [] ∧
      (middlewareAuth pkg apiCfg handler w r).w = handler w r user ∧
      writeCount w (middlewareAuth pkg apiCfg handler w r).w =
        writeCount w (handler w r user)) := by
  refine ⟨?_, ?_, ?_⟩
  · intro err hext
    rw [gate_extraction_failure pkg apiCfg handler w r err hext]
    obtain ⟨resp, hw⟩ := hresp w StatusNetworkAuthenticationRequired
      (Sprintf "Auth error: %v" err)
    refine ⟨by simp [errorResponderCalls], by simp [handlerCalls], rfl, ⟨resp, hw⟩, ?_⟩
    simp [writeCount, hw]
  · intro apiKey err hext hres
    rw [gate_resolution_failure pkg apiCfg handler w r apiKey err hext hres]
    obtain ⟨resp, hw⟩ := hresp w StatusNotFound (Sprintf "User Not Found: %v" err)
    refine ⟨by simp [errorResponderCalls], by simp [handlerCalls], rfl, ⟨resp, hw⟩, ?_⟩
    simp [writeCount, hw]
  · intro apiKey user hext hres
    rw [gate_delegation pkg apiCfg handler w r apiKey user hext hres]
    simp [errorResponderCalls]

theorem writes_per_path_witness :
    (∀ w0 code msg, ∃ resp,
      examplePackage.respondWithError w0 code msg = w0 ++ [resp]) ∧
    ((middlewareAuth examplePackage aliceConfig greetHandler [] bareRequest).w =
        examplePackage.respondWithError [] StatusNetworkAuthenticationRequired
          (Sprintf "Auth error: %v" (errorsNew "no authentication info found")) ∧
      writeCount [] (middlewareAuth examplePackage aliceConfig greetHandler [] bareRequest).w
        = 1) ∧
    ((middlewareAuth examplePackage emptyConfig greetHandler [] keyedRequest).w =
        examplePackage.respondWithError [] StatusNotFound
          (Sprintf "User Not Found: %v" (errorsNew "sql: no rows in result set")) ∧
      writeCount [] (middlewareAuth examplePackage emptyConfig greetHandler [] keyedRequest).w
        = 1) ∧
    (errorResponderCalls
        (middlewareAuth examplePackage aliceConfig chattyHandler [] keyedRequest).calls = [] ∧
      (middlewareAuth examplePackage aliceConfig chattyHandler [] keyedRequest).w =
        chattyHandler [] keyedRequest (User.mk 42 "alice")) :=
  have hresp : ∀ w0 code msg, ∃ resp,
      examplePackage.respondWithError w0 code msg = w0 ++ [resp] :=
    fun _ code msg => ⟨Response.mk code msg, rfl⟩
  have h1 := (writes_per_path examplePackage aliceConfig greetHandler [] bareRequest
    hresp).1 (errorsNew "no authentication info found") rfl
  have h2 := (writes_per_path examplePackage emptyConfig greetHandler [] keyedRequest
    hresp).2.1 "abc123" (errorsNew "sql: no rows in result set") rfl rfl
  have h3 := (writes_per_path examplePackage aliceConfig chattyHandler [] keyedRequest
    hresp).2.2 "abc123" (User.mk 42 "alice") rfl rfl
  ⟨hresp, ⟨h1.2.2.1, h1.2.2.2.2⟩, ⟨h2.2.2.1, h2.2.2.2.2⟩, ⟨h3.1, h3.2.1⟩⟩

/-- C6: on the success path the gate itself writes nothing: when the
credential resolves to a user `U`, the error responder is not called and the
sink after the gate returns is the one produced by running the wrapped handler
alone on the initial sink, the request and `U`. -/
theorem delegation_sink_is_handler_sink (pkg : Package) (apiCfg : apiConfig)
    (handler : authedHandler) (w : ResponseWriter) (r : Request)
    (apiKey : String) (user : User)
    (hext : pkg.GetAPIKey r.Header = .ok apiKey)
    (hres : apiCfg.DB.GetUserByAPTKey r.Context apiKey = .ok user) :
    (middlewareAuth pkg apiCfg handler w r).w = handler w r user ∧
    errorResponderCalls (middlewareAuth pkg apiCfg handler w r).calls = [] := by
  rw [gate_delegation pkg apiCfg handler w r apiKey user hext hres]
  simp [errorResponderCalls]

theorem delegation_sink_is_handler_sink_witness :
    (examplePackage.GetAPIKey keyedRequest.Header = .ok "abc123" ∧
      aliceConfig.DB.GetUserByAPTKey keyedRequest.Context "abc123" =
        .ok (User.mk 42 "alice")) ∧
    ((middlewareAuth examplePackage aliceConfig greetHandler [] keyedRequest).w =
        greetHandler [] keyedRequest (User.mk 42 "alice") ∧
      errorResponderCalls
        (middlewareAuth examplePackage aliceConfig greetHandler [] keyedRequest).calls = []) :=
  ⟨⟨rfl, rfl⟩, delegation_sink_is_handler_sink examplePackage aliceConfig greetHandler []
    keyedRequest "abc123" (User.mk 42 "alice") rfl rfl⟩

/-- C7, as stated, fails for an error whose dynamic type has a `Format`
method: `%v` prints what `Format` writes, not the text `Error()` returns.
With an extractor failing with an error whose `Error()` returns `short text`
and whose `Format` writes `formatted view`, the message handed to the error
responder is `Auth error: formatted view`, which is not `Auth error: `
followed by `short text`. -/
theorem message_not_error_text_for_formatter :
    formatterPackage.GetAPIKey bareRequest.Header = .error formattedError ∧
    formattedError.Error = ErrorMethod.returns "short text" ∧
    errorResponderCalls
        (middlewareAuth formatterPackage aliceConfig greetHandler [] bareRequest).calls =
      [([], StatusNetworkAuthenticationRequired, "Auth error: formatted view")] ∧
    (middlewareAuth formatterPackage aliceConfig greetHandler [] bareRequest).w =
      [Response.mk 511 "Auth error: formatted view"] ∧
    "Auth error: formatted view" ≠ "Auth error: " ++ "short text" := by
  refine ⟨rfl, rfl, ?_, ?_, by decide⟩
  · rw [gate_extraction_failure formatterPackage aliceConfig greetHandler []
      bareRequest formattedError rfl, Sprintf_auth_error]
    rfl
  · rw [gate_extraction_failure formatterPackage aliceConfig greetHandler []
      bareRequest formattedError rfl, Sprintf_auth_error]
    rfl

/-- C7, amended: the message handed to the error responder, and with which
the error responder is run on the sink, is `Auth error: ` followed by what
`%v` prints for the extraction error, and `User Not Found: ` followed by what
`%v` prints for the resolution error, with nothing else added.  For every
error without a `Format` method whose `Error()` returns a text, that is the
label followed by exactly that text. -/
theorem error_message_is_label_then_error_text (pkg : Package) (apiCfg : apiConfig)
    (handler : authedHandler) (w : ResponseWriter) (r : Request) :
    (∀ err, pkg.GetAPIKey r.Header = .error err →
      (errorResponderCalls (middlewareAuth pkg apiCfg handler w r).calls =
          [(w, StatusNetworkAuthenticationRequired, "Auth error: " ++ handleMethods err)] ∧
        (middlewareAuth pkg apiCfg handler w r).w =
          pkg.respondWithError w StatusNetworkAuthenticationRequired
            ("Auth error: " ++ handleMethods err)) ∧
      ∀ text, err.Format = FormatMethod.absent → err.Error = ErrorMethod.returns text →
        errorResponderCalls (middlewareAuth pkg apiCfg handler w r).calls =
          [(w, StatusNetworkAuthenticationRequired, "Auth error: " ++ text)] ∧
        (middlewareAuth pkg apiCfg handler w r).w =
          pkg.respondWithError w StatusNetworkAuthenticationRequired
            ("Auth error: " ++ text)) ∧
    (∀ apiKey err, pkg.GetAPIKey r.Header = .ok apiKey →
      apiCfg.DB.GetUserByAPTKey r.Context apiKey = .error err →
      (errorResponderCalls (middlewareAuth pkg apiCfg handler w r).calls =
          [(w, StatusNotFound, "User Not Found: " ++ handleMethods err)] ∧
        (middlewareAuth pkg apiCfg handler w r).w =
          pkg.respondWithError w StatusNotFound
            ("User Not Found: " ++ handleMethods err)) ∧
      ∀ text, err.Format = FormatMethod.absent → err.Error = ErrorMethod.returns text →
        errorResponderCalls (middlewareAuth pkg apiCfg handler w r).calls =
          [(w, StatusNotFound, "User Not Found: " ++ text)] ∧
        (middlewareAuth pkg apiCfg handler w r).w =
          pkg.respondWithError w StatusNotFound ("User Not Found: " ++ text)) := by
  constructor
  · intro err hext
    rw [gate_extraction_failure pkg apiCfg handler w r err hext, Sprintf_auth_error]
    refine ⟨⟨by simp [errorResponderCalls], rfl⟩, ?_⟩
    intro text hfmt herr
    rw [handleMethods_plain err text hfmt herr]
    exact ⟨by simp [errorResponderCalls], rfl⟩
  · intro apiKey err hext hres
    rw [gate_resolution_failure pkg apiCfg handler w r apiKey err hext hres,
      Sprintf_user_not_found]
    refine ⟨⟨by simp [errorResponderCalls], rfl⟩, ?_⟩
    intro text hfmt herr
    rw [handleMethods_plain err text hfmt herr]
    exact ⟨by simp [errorResponderCalls], rfl⟩

theorem error_message_is_label_then_error_text_witness :
    (errorResponderCalls
          (middlewareAuth examplePackage aliceConfig greetHandler [] bareRequest).calls =
        [([], StatusNetworkAuthenticationRequired,
          "Auth error: " ++ "no authentication info found")] ∧
      (middlewareAuth examplePackage aliceConfig greetHandler [] bareRequest).w =
        examplePackage.respondWithError [] StatusNetworkAuthenticationRequired
          ("Auth error: " ++ "no authentication info found")) ∧
    (errorResponderCalls
          (middlewareAuth examplePackage emptyConfig greetHandler [] keyedRequest).calls =
        [([], StatusNotFound, "User Not Found: " ++ "sql: no rows in result set")] ∧
      (middlewareAuth examplePackage emptyConfig greetHandler [] keyedRequest).w =
        examplePackage.respondWithError [] StatusNotFound
          ("User Not Found: " ++ "sql: no rows in result set")) :=
  ⟨((error_message_is_label_then_error_text examplePackage aliceConfig greetHandler []
      bareRequest).1 (errorsNew "no authentication info found") rfl).2
      "no authentication info found" rfl rfl,
    ((error_message_is_label_then_error_text examplePackage emptyConfig greetHandler []
      keyedRequest).2 "abc123" (errorsNew "sql: no rows in result set") rfl rfl).2
      "sql: no rows in result set" rfl rfl⟩

/-- C8: two gates obtained by calling `middlewareAuth` twice around the same
handler on the same `apiConfig` behave alike, and no state accumulates across
invocations.  In every run of invocations of the two closures, each
invocation leaves the sink and the calls that the results of the extractor
and of the resolver on its own request prescribe (the same handler call, or
the same error status and message), whichever closure served it and whatever
was served before; the captured variables are after the run what they were
before it; and after the run both closures leave the same sink and calls on
any further request. -/
theorem wrapping_twice_same_outcome (pkg : Package) (apiCfg : apiConfig)
    (handler : authedHandler) (history : List (Bool × ResponseWriter × Request)) :
    (serve pkg (Closures.mk apiCfg handler handler) history).1 =
      history.map (fun q => outcomeOfResults pkg apiCfg handler q.2.1 q.2.2) ∧
    (serve pkg (Closures.mk apiCfg handler handler) history).2 =
      Closures.mk apiCfg handler handler ∧
    ∀ w r,
      ((invoke pkg (serve pkg (Closures.mk apiCfg handler handler) history).2
          false w r).1.w,
        (invoke pkg (serve pkg (Closures.mk apiCfg handler handler) history).2
          false w r).1.calls) = outcomeOfResults pkg apiCfg handler w r ∧
      ((invoke pkg (serve pkg (Closures.mk apiCfg handler handler) history).2
          true w r).1.w,
        (invoke pkg (serve pkg (Closures.mk apiCfg handler handler) history).2
          true w r).1.calls) = outcomeOfResults pkg apiCfg handler w r := by
  have hrun : serve pkg (Closures.mk apiCfg handler handler) history =
      (history.map (fun q => outcomeOfResults pkg apiCfg handler q.2.1 q.2.2),
        Closures.mk apiCfg handler handler) := by
    induction history with
    | nil => rfl
    | cons q rest ih =>
      obtain ⟨second, w, r⟩ := q
      have hout := (gate_outcome pkg apiCfg handler w r).1
      simp only [serve, invoke_keeps_closures, ih, List.map_cons]
      rw [hout]
  rw [hrun]
  refine ⟨rfl, rfl, ?_⟩
  intro w r
  simp only [invoke_keeps_closures]
  exact ⟨(gate_outcome pkg apiCfg handler w r).1, (gate_outcome pkg apiCfg handler w r).1⟩

theorem wrapping_twice_same_outcome_witness :
    (serve examplePackage (Closures.mk aliceConfig greetHandler greetHandler)
        [(false, [], keyedRequest), (true, [], bareRequest),
          (true, [], keyedRequest)]).1.map Prod.fst =
      [[Response.mk 200 "alice"],
        [Response.mk 511 "Auth error: no authentication info found"],
        [Response.mk 200 "alice"]] :=
  (congrArg (List.map Prod.fst)
    (wrapping_twice_same_outcome examplePackage aliceConfig greetHandler
      [(false, [], keyedRequest), (true, [], bareRequest),
        (true, [], keyedRequest)]).1).trans (by decide)

/-- C9: the gate performs no retries.  In one invocation the extractor is
called exactly once, on the headers of the request, and the resolver at most
once; when extraction fails the only call after it is one call of the error
responder, and when resolution fails the only call after it is one call of
the error responder. -/
theorem no_retries (pkg : Package) (apiCfg : apiConfig)
    (handler : authedHandler) (w : ResponseWriter) (r : Request) :
    extractorCalls (middlewareAuth pkg apiCfg handler w r).calls = [r.Header] ∧
    (resolverCalls (middlewareAuth pkg apiCfg handler w r).calls).length ≤ 1 ∧
    (∀ err, pkg.GetAPIKey r.Header = .error err →
      (middlewareAuth pkg apiCfg handler w r).calls =
        [Call.GetAPIKey r.Header,
          Call.respondWithError w StatusNetworkAuthenticationRequired
            (Sprintf "Auth error: %v" err)]) ∧
    (∀ apiKey err, pkg.GetAPIKey r.Header = .ok apiKey →
      apiCfg.DB.GetUserByAPTKey r.Context apiKey = .error err →
      (middlewareAuth pkg apiCfg handler w r).calls =
        [Call.GetAPIKey r.Header, Call.GetUserByAPTKey r.Context apiKey,
          Call.respondWithError w StatusNotFound
            (Sprintf "User Not Found: %v" err)]) := by
  refine ⟨?_, ?_, ?_, ?_⟩
  · rcases gate_paths pkg apiCfg r with
      ⟨err, h1⟩ | ⟨apiKey, err, h1, h2⟩ | ⟨apiKey, user, h1, h2⟩
    · rw [gate_extraction_failure pkg apiCfg handler w r err h1]
      simp [extractorCalls]
    · rw [gate_resolution_failure pkg apiCfg handler w r apiKey err h1 h2]
      simp [extractorCalls]
    · rw [gate_delegation pkg apiCfg handler w r apiKey user h1 h2]
      simp [extractorCalls]
  · rcases gate_paths pkg apiCfg r with
      ⟨err, h1⟩ | ⟨apiKey, err, h1, h2⟩ | ⟨apiKey, user, h1, h2⟩
    · rw [gate_extraction_failure pkg apiCfg handler w r err h1]
      simp [resolverCalls]
    · rw [gate_resolution_failure pkg apiCfg handler w r apiKey err h1 h2]
      simp [resolverCalls]
    · rw [gate_delegation pkg apiCfg handler w r apiKey user h1 h2]
      simp [resolverCalls]
  · intro err h1
    rw [gate_extraction_failure pkg apiCfg handler w r err h1]
  · intro apiKey err h1 h2
    rw [gate_resolution_failure pkg apiCfg handler w r apiKey err h1 h2]

theorem no_retries_witness :
    extractorCalls
        (middlewareAuth examplePackage emptyConfig greetHandler [] keyedRequest).calls =
      [keyedRequest.Header] ∧
    (middlewareAuth examplePackage emptyConfig greetHandler [] keyedRequest).calls =
      [Call.GetAPIKey keyedRequest.Header,
        Call.GetUserByAPTKey keyedRequest.Context "abc123",
        Call.respondWithError [] StatusNotFound
          (Sprintf "User Not Found: %v" (errorsNew "sql: no rows in result set"))] :=
  ⟨(no_retries examplePackage emptyConfig greetHandler [] keyedRequest).1,
    (no_retries examplePackage emptyConfig greetHandler [] keyedRequest).2.2.2
      "abc123" (errorsNew "sql: no rows in result set") rfl rfl⟩

/-- C10: the resolver is called only after extraction succeeds and only with
the credential the extractor returned for the headers of this request.  When
`GetAPIKey` fails, `GetUserByAPTKey` is never called; every call of
`GetUserByAPTKey` carries the context of the request and the extracted key,
and comes right after the extractor call that opens the log. -/
theorem resolver_called_only_with_extracted_key (pkg : Package) (apiCfg : apiConfig)
    (handler : authedHandler) (w : ResponseWriter) (r : Request) :
    (∀ err, pkg.GetAPIKey r.Header = .error err →
      resolverCalls (middlewareAuth pkg apiCfg handler w r).calls = []) ∧
    (∀ ctx apiKey,
      (ctx, apiKey) ∈ resolverCalls (middlewareAuth pkg apiCfg handler w r).calls →
      pkg.GetAPIKey r.Header = .ok apiKey ∧ ctx = r.Context ∧
      resolverCalls (middlewareAuth pkg apiCfg handler w r).calls = [(ctx, apiKey)] ∧
      ∃ rest, (middlewareAuth pkg apiCfg handler w r).calls =
        Call.GetAPIKey r.Header :: Call.GetUserByAPTKey ctx apiKey :: rest) := by
  constructor
  · intro err h1
    rw [gate_extraction_failure pkg apiCfg handler w r err h1]
    simp [resolverCalls]
  · intro ctx key hmem
    rcases gate_paths pkg apiCfg r with
      ⟨err, h1⟩ | ⟨apiKey, err, h1, h2⟩ | ⟨apiKey, user, h1, h2⟩
    · rw [gate_extraction_failure pkg apiCfg handler w r err h1] at hmem
      simp [resolverCalls] at hmem
    · rw [gate_resolution_failure pkg apiCfg handler w r apiKey err h1 h2] at hmem ⊢
      simp [resolverCalls] at hmem
      obtain ⟨hc, hk⟩ := hmem
      subst hc hk
      simp [resolverCalls, h1]
    · rw [gate_delegation pkg apiCfg handler w r apiKey user h1 h2] at hmem ⊢
      simp [resolverCalls] at hmem
      obtain ⟨hc, hk⟩ := hmem
      subst hc hk
      simp [resolverCalls, h1]

theorem resolver_called_only_with_extracted_key_witness :
    resolverCalls
        (middlewareAuth examplePackage aliceConfig greetHandler [] bareRequest).calls = [] ∧
    examplePackage.GetAPIKey keyedRequest.Header = .ok "abc123" :=
  ⟨(resolver_called_only_with_extracted_key examplePackage aliceConfig greetHandler []
      bareRequest).1 (errorsNew "no authentication info found") rfl,
    ((resolver_called_only_with_extracted_key examplePackage aliceConfig greetHandler []
      keyedRequest).2 (Context.mk 7) "abc123" (by decide)).1⟩

end MiddlewareAuth
